import Mathlib

/-!
Verification of the DRONEX_AGENT repository (src/video_stream.py, src/agent.py)
against its natural-language specification.

The embedding is shallow: the producer loop of FrameSource._capture_loop is a
step function on an explicit state, driven by an environment trace that supplies
the outcomes of the external calls (cv2.VideoCapture open, cap.read, cv2.imencode);
the shared frame slot is an Option over byte lists; the HTTP stream generator is a
function from observed slot states to emitted actions; validate_config from
agent.py is an Except-valued function over a model of Python config values.
-/

/-- Encoded JPEG payload: a list of byte values (cv2.imencode buffer.tobytes()). -/
abbrev Jpeg := List Nat

/-- Raw image frame handed to cv2.imencode. Hardware frames are identified by a
capture index; the synthetic generator (FrameSource._simulation_frame) always
produces the fixed 640x480 SIMULATION FEED image, modelled as one distinguished
value since no claim inspects its pixels. -/
inductive RawFrame
  | hardware (id : Nat)
  | synthetic
deriving DecidableEq

/-- Outcome of the external calls during one iteration of the capture loop:
whether cap.read() returns ok and which frame, and what cv2.imencode returns
for a given raw frame this cycle (none models an encode failure). -/
structure CycleEnv where
  readOk : Bool
  readFrame : RawFrame
  encode : RawFrame → Option Jpeg

/-- State of FrameSource._capture_loop: the _simulation_mode flag, the shared
_latest_jpeg slot, plus instrumentation counters — number of cap.release()
calls, number of cap.read() calls, number of synthetic frames generated, and
number of completed loop iterations. -/
structure LoopState where
  simulationMode : Bool
  latestJpeg : Option Jpeg
  released : Nat
  hwReads : Nat
  synFrames : Nat
  cycles : Nat
deriving DecidableEq

/-- FrameSource._set_latest: publish into the shared frame slot (lines 32-34). -/
def set_latest (_slot : Option Jpeg) (j : Jpeg) : Option Jpeg := some j

/-- FrameSource.get_latest_jpeg: read the shared frame slot (lines 28-30). -/
def get_latest_jpeg (slot : Option Jpeg) : Option Jpeg := slot

/-- One iteration of the while loop in FrameSource._capture_loop (lines 44-55):
in simulation mode encode a synthetic frame; otherwise cap.read(), and on read
failure set _simulation_mode and continue; a successful encode is published via
_set_latest, a failed encode publishes nothing. -/
def captureStep (e : CycleEnv) (s : LoopState) : LoopState :=
  if s.simulationMode then
    match e.encode RawFrame.synthetic with
    | some j => { s with latestJpeg := set_latest s.latestJpeg j,
                         synFrames := s.synFrames + 1, cycles := s.cycles + 1 }
    | none   => { s with synFrames := s.synFrames + 1, cycles := s.cycles + 1 }
  else
    if e.readOk then
      match e.encode e.readFrame with
      | some j => { s with latestJpeg := set_latest s.latestJpeg j,
                           hwReads := s.hwReads + 1, cycles := s.cycles + 1 }
      | none   => { s with hwReads := s.hwReads + 1, cycles := s.cycles + 1 }
    else
      { s with simulationMode := true, hwReads := s.hwReads + 1, cycles := s.cycles + 1 }

/-- State at loop entry (lines 36-42): _simulation_mode is set exactly when
cv2.VideoCapture(camera_index).isOpened() is false, the slot starts empty
(FrameSource.init, line 16), nothing read or released yet. -/
def initState (opened : Bool) : LoopState :=
  { simulationMode := !opened, latestJpeg := none,
    released := 0, hwReads := 0, synFrames := 0, cycles := 0 }

/-- Run the while loop over a trace of cycle environments (the stop event is
observed after the last one). -/
def runCycles (s : LoopState) (envs : List CycleEnv) : LoopState :=
  envs.foldl (fun t e => captureStep e t) s

/-- A whole producer session (lines 36-58): open the device, run the loop until
stop, then release the device only when _simulation_mode is still false
(lines 57-58). -/
def runLoop (opened : Bool) (envs : List CycleEnv) : LoopState :=
  let sN := runCycles (initState opened) envs
  if sN.simulationMode then sN else { sN with released := sN.released + 1 }

/-- Helper: a step taken in simulation mode stays in simulation mode, performs
no hardware read, and generates exactly one synthetic frame. -/
lemma captureStep_sim (e : CycleEnv) (s : LoopState) (h : s.simulationMode = true) :
    (captureStep e s).simulationMode = true ∧
    (captureStep e s).hwReads = s.hwReads ∧
    (captureStep e s).synFrames = s.synFrames + 1 := by
  unfold captureStep
  rw [h]
  cases e.encode RawFrame.synthetic <;> simp

/-- Helper: running any trace from a simulation-mode state keeps simulation
mode, leaves the hardware-read count untouched, and generates one synthetic
frame per cycle. -/
lemma runCycles_sim (envs : List CycleEnv) (s : LoopState) (h : s.simulationMode = true) :
    (runCycles s envs).simulationMode = true ∧
    (runCycles s envs).hwReads = s.hwReads ∧
    (runCycles s envs).synFrames = s.synFrames + envs.length := by
  induction envs generalizing s with
  | nil => simp [runCycles, h]
  | cons e rest ih =>
    obtain ⟨h1, h2, h3⟩ := captureStep_sim e s h
    obtain ⟨g1, g2, g3⟩ := ih (captureStep e s) h1
    refine ⟨g1, ?_, ?_⟩
    · rw [runCycles] at g2 ⊢
      simp only [List.foldl_cons]
      rw [g2, h2]
    · rw [runCycles] at g3 ⊢
      simp only [List.foldl_cons]
      rw [g3, h3, List.length_cons]
      omega

/-- C1: once the producer loop is in SYNTHETIC mode, every later cycle of the
session uses the synthetic generator (one frame per cycle) and the loop never
performs a hardware read again — for every continuation trace, including ones
where the hardware read would succeed — a one-way latch. -/
theorem synthetic_mode_one_way_latch (envs : List CycleEnv) (s : LoopState)
    (h : s.simulationMode = true) :
    (runCycles s envs).simulationMode = true ∧
    (runCycles s envs).hwReads = s.hwReads ∧
    (runCycles s envs).synFrames = s.synFrames + envs.length :=
  runCycles_sim envs s h

/-- A cycle environment in which the hardware read would succeed. -/
def hwOkEnv : CycleEnv :=
  { readOk := true, readFrame := RawFrame.hardware 0, encode := fun _ => some [1] }

/-- A cycle environment in which the hardware read fails. -/
def hwFailEnv : CycleEnv :=
  { readOk := false, readFrame := RawFrame.hardware 0, encode := fun _ => some [1] }

/-- Witness for C1: from the state right after a failed open, two cycles in
which the hardware would succeed still perform no hardware read. -/
theorem synthetic_mode_one_way_latch_witness :
    (initState false).simulationMode = true ∧
    ((runCycles (initState false) [hwOkEnv, hwOkEnv]).simulationMode = true ∧
     (runCycles (initState false) [hwOkEnv, hwOkEnv]).hwReads = (initState false).hwReads ∧
     (runCycles (initState false) [hwOkEnv, hwOkEnv]).synFrames = (initState false).synFrames + 2) :=
  ⟨rfl, synthetic_mode_one_way_latch [hwOkEnv, hwOkEnv] (initState false) rfl⟩

/-- C2 (code bug): in a session whose device opened successfully, a later read
failure moves the loop to SYNTHETIC, and the final release guard
(lines 57-58: release only when _simulation_mode is false) then never fires —
the device is released zero times instead of exactly once (a leak). On the
normal-stop path with no read failure it is released exactly once. -/
theorem hw_to_synthetic_release_leak :
    (runLoop true [hwFailEnv, hwOkEnv]).simulationMode = true ∧
    (runLoop true [hwFailEnv, hwOkEnv]).released = 0 ∧
    (runLoop true [hwOkEnv, hwOkEnv]).released = 1 :=
  ⟨rfl, rfl, rfl⟩

/-- Helper: folding a nonempty publish sequence into the slot leaves exactly
the last published frame. -/
lemma foldl_set_latest (js : List Jpeg) (h : js ≠ []) :
    ∀ slot : Option Jpeg, js.foldl set_latest slot = some (js.getLast h) := by
  induction js with
  | nil => exact absurd rfl h
  | cons a t ih =>
    intro slot
    cases t with
    | nil => simp [set_latest]
    | cons b u =>
      rw [List.foldl_cons, List.getLast_cons (by simp)]
      exact ih (by simp) (set_latest slot a)

/-- C3: after any nonempty sequence of N publishes through _set_latest, reading
the shared frame slot with get_latest_jpeg returns exactly the Nth published
frame — never an older one and never a mixture — from any starting slot. -/
theorem published_order_consistency (js : List Jpeg) (slot : Option Jpeg) (h : js ≠ []) :
    get_latest_jpeg (js.foldl set_latest slot) = some (js.getLast h) :=
  foldl_set_latest js h slot

/-- Witness for C3: publishing three frames leaves the third in the slot. -/
theorem published_order_consistency_witness :
    get_latest_jpeg ([[1], [2], [3]].foldl set_latest none) =
      some (([[1], [2], [3]] : List Jpeg).getLast (by simp)) :=
  published_order_consistency [[1], [2], [3]] none (by simp)

/-- C4: a cycle whose encode fails publishes nothing (the slot is untouched),
yet the loop completes the iteration and moves on; it does not retry the same
raw frame — the next cycle performs its own fresh hardware read — and that next
cycle successful encode is published and visible through get_latest_jpeg. -/
theorem encode_failure_nonfatal (s : LoopState) (e1 e2 : CycleEnv) (j : Jpeg)
    (hs : s.simulationMode = false)
    (h1r : e1.readOk = true) (h1e : e1.encode e1.readFrame = none)
    (h2r : e2.readOk = true) (h2e : e2.encode e2.readFrame = some j) :
    (captureStep e1 s).latestJpeg = s.latestJpeg ∧
    (captureStep e1 s).cycles = s.cycles + 1 ∧
    get_latest_jpeg (runCycles s [e1, e2]).latestJpeg = some j ∧
    (runCycles s [e1, e2]).hwReads = s.hwReads + 2 := by
  have step1 : captureStep e1 s =
      { s with hwReads := s.hwReads + 1, cycles := s.cycles + 1 } := by
    unfold captureStep
    rw [hs, h1r, h1e]
    simp
  have step2 : ∀ t : LoopState, t.simulationMode = false → captureStep e2 t =
      { t with latestJpeg := some j, hwReads := t.hwReads + 1, cycles := t.cycles + 1 } := by
    intro t ht
    unfold captureStep
    rw [ht, h2r, h2e]
    simp [set_latest]
  refine ⟨by rw [step1], by rw [step1], ?_, ?_⟩
  · show get_latest_jpeg (captureStep e2 (captureStep e1 s)).latestJpeg = some j
    rw [step1, step2 _ (by simpa using hs)]
    rfl
  · show (captureStep e2 (captureStep e1 s)).hwReads = s.hwReads + 2
    rw [step1, step2 _ (by simpa using hs)]

/-- A cycle environment whose encode fails. -/
def encFailEnv : CycleEnv :=
  { readOk := true, readFrame := RawFrame.hardware 1, encode := fun _ => none }

/-- A cycle environment whose hardware frame encodes to [7]. -/
def encOkEnv : CycleEnv :=
  { readOk := true, readFrame := RawFrame.hardware 2, encode := fun _ => some [7] }

/-- Witness for C4: encode failure on cycle one, success on cycle two, starting
from the initial hardware-mode state. -/
theorem encode_failure_nonfatal_witness :
    (captureStep encFailEnv (initState true)).latestJpeg = (initState true).latestJpeg ∧
    (captureStep encFailEnv (initState true)).cycles = (initState true).cycles + 1 ∧
    get_latest_jpeg (runCycles (initState true) [encFailEnv, encOkEnv]).latestJpeg = some [7] ∧
    (runCycles (initState true) [encFailEnv, encOkEnv]).hwReads = (initState true).hwReads + 2 :=
  encode_failure_nonfatal (initState true) encFailEnv encOkEnv [7] rfl rfl rfl rfl rfl

/-- C7: get_latest_jpeg is a pure read under the lock (lines 28-30): it returns
the slot and leaves it unchanged, so two consecutive reads with no intervening
publish return byte-identical results. Reads are modelled state-passing style
as (value, slot after the call). -/
theorem get_latest_idempotent (slot : Option Jpeg) :
    (get_latest_jpeg slot, slot).1 = (get_latest_jpeg slot, slot).2 ∧
    get_latest_jpeg slot = get_latest_jpeg ((get_latest_jpeg slot, slot).2) ∧
    ((get_latest_jpeg slot, slot).2 : Option Jpeg) = slot :=
  ⟨rfl, rfl, rfl⟩

/-- An operation on the shared frame slot: a producer publish (_set_latest) or
a consumer read (get_latest_jpeg, which does not change the slot). -/
inductive SlotOp
  | publish (j : Jpeg)
  | read

/-- Effect of a slot operation on the slot contents. -/
def applySlotOp (slot : Option Jpeg) : SlotOp → Option Jpeg
  | .publish j => set_latest slot j
  | .read => slot

/-- Helper: no slot operation ever clears the slot. -/
lemma applySlotOp_isSome (slot : Option Jpeg) (op : SlotOp) (h : slot.isSome = true) :
    (applySlotOp slot op).isSome = true := by
  cases op <;> simp [applySlotOp, set_latest, h]

/-- Helper: any sequence of slot operations preserves a nonempty slot. -/
lemma foldl_applySlotOp_isSome (ops : List SlotOp) :
    ∀ slot : Option Jpeg, slot.isSome = true → (ops.foldl applySlotOp slot).isSome = true := by
  induction ops with
  | nil => intro slot h; simpa [List.foldl_nil]
  | cons op rest ih =>
    intro slot h
    rw [List.foldl_cons]
    exact ih _ (applySlotOp_isSome slot op h)

/-- C9: the shared frame slot starts empty (FrameSource.init line 16) and never
goes back from nonempty to empty: after any publish, every sequence of further
publishes and reads leaves it nonempty, and a capture-loop cycle never clears
it either. -/
theorem slot_never_cleared (ops : List SlotOp) (slot : Option Jpeg) (j : Jpeg)
    (e : CycleEnv) (s : LoopState) (h : s.latestJpeg.isSome = true) :
    (initState true).latestJpeg = none ∧
    (ops.foldl applySlotOp (applySlotOp slot (.publish j))).isSome = true ∧
    (captureStep e s).latestJpeg.isSome = true := by
  refine ⟨rfl, foldl_applySlotOp_isSome ops _ (by simp [applySlotOp, set_latest]), ?_⟩
  unfold captureStep
  cases hm : s.simulationMode
  · simp only [Bool.false_eq_true, if_false]
    cases e.readOk
    · simpa using h
    · cases e.encode e.readFrame <;> simp [set_latest, h]
  · simp only [if_true]
    cases e.encode RawFrame.synthetic <;> simp [set_latest, h]

/-- A sample loop state holding frame [5], used as the C9 witness input. -/
def sampleState : LoopState :=
  { simulationMode := false, latestJpeg := some [5],
    released := 0, hwReads := 0, synFrames := 0, cycles := 0 }

/-- Witness for C9: a read after a publish on the initially empty slot, and a
capture step from a state holding [5]. -/
theorem slot_never_cleared_witness :
    (initState true).latestJpeg = none ∧
    ([SlotOp.read].foldl applySlotOp (applySlotOp none (.publish [5]))).isSome = true ∧
    (captureStep hwOkEnv sampleState).latestJpeg.isSome = true :=
  slot_never_cleared [SlotOp.read] none [5] hwOkEnv sampleState rfl

/-- ASCII bytes of a string literal, for building multipart sections. -/
def asciiBytes (s : String) : List Nat := s.data.map Char.toNat

/-- One multipart section of the MJPEG stream, from line 88 of video_stream.py:
the bytes b"--frame CRLF Content-Type: image/jpeg CRLF CRLF" ++ jpeg ++ CRLF. -/
def mjpegPart (j : Jpeg) : List Nat :=
  asciiBytes "--frame\r\nContent-Type: image/jpeg\r\n\r\n" ++ j ++ asciiBytes "\r\n"

/-- The mimetype the /stream.mjpg route serves (line 95 of video_stream.py). -/
def stream_mimetype : String := "multipart/x-mixed-replace; boundary=frame"

/-- What one iteration of the mjpeg_stream generator (lines 79-88) does, as a
function of the observed state: the outer Option is the module-level
frame_source global (none before main assigns it), the inner Option the shared
frame slot. The generator sleeps 0.1 s when there is no frame source, sleeps
0.05 s when the slot is empty, and otherwise yields one multipart section. -/
inductive StreamStep
  | waitSource
  | waitEmpty
  | emit (part : List Nat)
deriving DecidableEq

/-- One iteration of the generator loop in mjpeg_stream. -/
def mjpegIter : Option (Option Jpeg) → StreamStep
  | none => .waitSource
  | some slot =>
    match get_latest_jpeg slot with
    | none => .waitEmpty
    | some j => .emit (mjpegPart j)

/-- Backoff slept by an iteration, in seconds (lines 82 and 86). -/
def backoffSeconds : StreamStep → ℚ
  | .waitSource => 1/10
  | .waitEmpty => 1/20
  | .emit _ => 0

/-- The payload emitted by an iteration, if any. -/
def emittedPart : StreamStep → Option (List Nat)
  | .emit p => some p
  | _ => none

/-- The sequence of multipart sections a connection receives over a trace of
observed generator states: one iteration per observation, wait iterations
produce nothing. -/
def mjpegRun (trace : List (Option (Option Jpeg))) : List (List Nat) :=
  trace.filterMap (fun fs => emittedPart (mjpegIter fs))

/-- Helper: an iteration emits a section exactly when the slot holds a frame. -/
lemma mjpegIter_emit (fs : Option (Option Jpeg)) (p : List Nat)
    (h : mjpegIter fs = .emit p) : ∃ j, fs = some (some j) ∧ p = mjpegPart j := by
  match fs with
  | none => simp [mjpegIter] at h
  | some none => simp [mjpegIter, get_latest_jpeg] at h
  | some (some j) =>
    refine ⟨j, rfl, ?_⟩
    simpa [mjpegIter, get_latest_jpeg] using h.symm

/-- Helper: a trace of empty observations emits nothing. -/
lemma mjpegRun_empty_trace (pre : List (Option (Option Jpeg)))
    (hpre : ∀ x ∈ pre, x = none ∨ x = some none) : mjpegRun pre = [] := by
  induction pre with
  | nil => rfl
  | cons a t ih =>
    have ha := hpre a (List.mem_cons_self a t)
    have ht := ih (fun x hx => hpre x (List.mem_cons_of_mem a hx))
    rcases ha with ha | ha <;>
      simp [mjpegRun, ha, mjpegIter, get_latest_jpeg, emittedPart] at ht ⊢ <;>
      simpa [mjpegRun] using ht

/-- C5: the generator never emits a section while the shared frame slot is
empty — an empty read leads to a fixed 0.05 s backoff and a retry, an absent
frame source to a fixed 0.1 s backoff, and every emission comes from a state
where the slot holds a frame; a connection whose first observations are all
empty receives a delayed first section (the first published frame), not an
error. -/
theorem stream_waits_for_frame (pre rest : List (Option (Option Jpeg))) (j : Jpeg)
    (hpre : ∀ x ∈ pre, x = none ∨ x = some none) :
    mjpegIter (some none) = .waitEmpty ∧
    mjpegIter none = .waitSource ∧
    backoffSeconds .waitEmpty = 1/20 ∧
    backoffSeconds .waitSource = 1/10 ∧
    (∀ fs p, mjpegIter fs = .emit p → ∃ jf, fs = some (some jf) ∧ p = mjpegPart jf) ∧
    mjpegRun (pre ++ some (some j) :: rest) = mjpegPart j :: mjpegRun rest := by
  refine ⟨rfl, rfl, rfl, rfl, mjpegIter_emit, ?_⟩
  have hempty : List.filterMap (fun fs => emittedPart (mjpegIter fs)) pre = [] :=
    mjpegRun_empty_trace pre hpre
  show List.filterMap (fun fs => emittedPart (mjpegIter fs)) (pre ++ some (some j) :: rest) = _
  rw [List.filterMap_append, hempty, List.nil_append, List.filterMap_cons]
  rfl

/-- Witness for C5: a connection that observes no-source, then an empty slot,
then a slot holding [9] receives exactly the section for [9]. -/
theorem stream_waits_for_frame_witness :
    mjpegIter (some none) = .waitEmpty ∧
    mjpegIter none = .waitSource ∧
    backoffSeconds .waitEmpty = 1/20 ∧
    backoffSeconds .waitSource = 1/10 ∧
    (∀ fs p, mjpegIter fs = .emit p → ∃ jf, fs = some (some jf) ∧ p = mjpegPart jf) ∧
    mjpegRun ([none, some none] ++ some (some [9]) :: []) = mjpegPart [9] :: mjpegRun [] :=
  stream_waits_for_frame [none, some none] [] [9] (by decide)

/-- C6: every section a connection receives is exactly the boundary marker
"--" ++ "frame", CRLF, the header "Content-Type: image/jpeg", CRLF CRLF, the
JPEG bytes read from the slot, and a trailing CRLF; and the route serves
mimetype multipart/x-mixed-replace with boundary "frame". -/
theorem mjpeg_part_format (trace : List (Option (Option Jpeg))) (p : List Nat)
    (hp : p ∈ mjpegRun trace) :
    (∃ j, p = asciiBytes ("--" ++ "frame") ++ asciiBytes "\r\n" ++
        asciiBytes "Content-Type: image/jpeg" ++ asciiBytes "\r\n" ++ asciiBytes "\r\n" ++
        j ++ asciiBytes "\r\n") ∧
    stream_mimetype = "multipart/x-mixed-replace; boundary=" ++ "frame" := by
  constructor
  · rw [mjpegRun, List.mem_filterMap] at hp
    obtain ⟨fs, _, hfs⟩ := hp
    match hstep : mjpegIter fs with
    | .waitSource => rw [hstep] at hfs; exact absurd hfs (by simp [emittedPart])
    | .waitEmpty => rw [hstep] at hfs; exact absurd hfs (by simp [emittedPart])
    | .emit q =>
      rw [hstep] at hfs
      obtain ⟨j, _, hj⟩ := mjpegIter_emit fs q hstep
      refine ⟨j, ?_⟩
      have hq : p = q := by simpa [emittedPart] using hfs.symm
      rw [hq, hj, mjpegPart]
      rfl
  · rfl

/-- Witness for C6: the section received for frame [9] over a one-step trace. -/
theorem mjpeg_part_format_witness :
    (∃ j, mjpegPart [9] = asciiBytes ("--" ++ "frame") ++ asciiBytes "\r\n" ++
        asciiBytes "Content-Type: image/jpeg" ++ asciiBytes "\r\n" ++ asciiBytes "\r\n" ++
        j ++ asciiBytes "\r\n") ∧
    stream_mimetype = "multipart/x-mixed-replace; boundary=" ++ "frame" :=
  mjpeg_part_format [some (some [9])] (mjpegPart [9]) (by
    simp [mjpegRun, mjpegIter, get_latest_jpeg, emittedPart])

/-- Numeric value of a list of decimal digit characters. -/
def digitsToNat (l : List Char) : Nat :=
  l.foldl (fun a c => a * 10 + (c.toNat - 48)) 0

/-- Python int() applied to a character list, on the fragment the program
exercises: optional surrounding whitespace, an optional sign, then decimal
digits; none models the ValueError raised on any other string. -/
def pyIntChars (l : List Char) : Option Int :=
  match ((l.dropWhile Char.isWhitespace).reverse.dropWhile Char.isWhitespace).reverse with
  | [] => none
  | c :: rest =>
    let core := if c = '-' ∨ c = '+' then rest else c :: rest
    if core ≠ [] ∧ core.all Char.isDigit then
      some (if c = '-' then -(digitsToNat core : Int) else (digitsToNat core : Int))
    else none

/-- Python int() applied to a string. -/
def pyIntOfString (s : String) : Option Int := pyIntChars s.data

/-- The process configuration main builds once from argparse (video_stream.py
lines 99-115) and never mutates afterwards. -/
structure ServerConfig where
  host : String
  port : Int
  camera : Int
  fps : ℚ
deriving DecidableEq

/-- Defaults of main when no command-line override is given: host "0.0.0.0",
port int(os.getenv("MJPEG_PORT", "8080")) as a function of the environment
variable (none when unset; a none result models the ValueError on a
non-numeric value), camera index 0, fps 10.0. -/
def defaultServerConfig (envMJPEGPort : Option String) : Option ServerConfig :=
  match pyIntOfString (envMJPEGPort.getD "8080") with
  | some p => some { host := "0.0.0.0", port := p, camera := 0, fps := 10 }
  | none => none

/-- C8: at startup the bind host defaults to 0.0.0.0, the port to the value of
MJPEG_PORT when that environment variable is set (and numeric) and to 8080
otherwise, the capture device index to 0, and the capture rate to 10 frames
per second; the configuration is built once from these values. -/
theorem startup_defaults (s : String) (p : Int) (hp : pyIntOfString s = some p) :
    defaultServerConfig none = some { host := "0.0.0.0", port := 8080, camera := 0, fps := 10 } ∧
    defaultServerConfig (some s) = some { host := "0.0.0.0", port := p, camera := 0, fps := 10 } := by
  constructor
  · rfl
  · simp [defaultServerConfig, Option.getD, hp]

/-- Witness for C8: MJPEG_PORT set to "9000" yields port 9000. -/
theorem startup_defaults_witness :
    pyIntOfString "9000" = some 9000 ∧
    (defaultServerConfig none = some { host := "0.0.0.0", port := 8080, camera := 0, fps := 10 } ∧
     defaultServerConfig (some "9000") =
       some { host := "0.0.0.0", port := 9000, camera := 0, fps := 10 }) :=
  ⟨by decide, startup_defaults "9000" 9000 (by decide)⟩

/-- A Python config value as agent.py manipulates it with str() and int(): a
string (as a character list) or an integer. -/
inductive PyValue
  | str (s : List Char)
  | int (n : Int)
deriving DecidableEq

/-- Python str() of a config value. -/
def pyStrVal : PyValue → List Char
  | .str s => s
  | .int n => (toString n).data

/-- Python int() of a config value: an integer is returned unchanged, a string
is parsed; none models the ValueError on a non-numeric string. -/
def pyToInt : PyValue → Option Int
  | .int n => some n
  | .str s => pyIntChars s

/-- Python str.rstrip with argument "/": remove all trailing slash characters. -/
def rstripSlashes (s : List Char) : List Char :=
  (s.reverse.dropWhile (fun c => c = '/')).reverse

/-- Python str.startswith. -/
def startsWithChars (pre s : List Char) : Bool := pre.isPrefixOf s

/-- Python str.upper (the values in scope are ASCII). -/
def upperChars (s : List Char) : List Char := s.map Char.toUpper

/-- The agent configuration dictionary restricted to the keys validate_config
examines; none models a missing key. -/
structure AgentConfig where
  dronexUrl : Option PyValue
  droneId : Option PyValue
  droneToken : Option PyValue
  mode : Option PyValue
  telemetryInterval : Option PyValue
deriving DecidableEq

/-- The dictionary validate_config returns on success: the original entries
with DRONEX_URL, MODE and TELEMETRY_INTERVAL replaced by their normalised
values. -/
structure ValidatedConfig where
  dronexUrl : List Char
  droneId : PyValue
  droneToken : PyValue
  mode : List Char
  telemetryInterval : Int
deriving DecidableEq

/-- An exception escaping validate_config: the ConfigError the function raises
itself, or the ValueError raised by int() on a non-numeric string. -/
inductive AgentError
  | configError (msg : String)
  | valueError
deriving DecidableEq

/-- agent.py validate_config (lines 71-100): require the five keys, strip
trailing slashes from str(DRONEX_URL) and require the stripped value to start
with https://, upper-case str(MODE) and require SIMULATION or MAVLINK, convert
TELEMETRY_INTERVAL with int() and require the result positive, then return the
config with the three normalised values (the Python locals dronex_url, mode
and interval are inlined here). -/
def validate_config (c : AgentConfig) : Except AgentError ValidatedConfig :=
  match c.dronexUrl, c.droneId, c.droneToken, c.mode, c.telemetryInterval with
  | some url, some did, some tok, some m, some ti =>
    if ¬ startsWithChars "https://".data (rstripSlashes (pyStrVal url)) = true then
      .error (.configError "DRONEX_URL must start with https://")
    else if ¬ (upperChars (pyStrVal m) = "SIMULATION".data ∨
               upperChars (pyStrVal m) = "MAVLINK".data) then
      .error (.configError "MODE must be SIMULATION or MAVLINK")
    else
      match pyToInt ti with
      | none => .error .valueError
      | some interval =>
        if interval ≤ 0 then
          .error (.configError "TELEMETRY_INTERVAL must be > 0")
        else
          .ok { dronexUrl := rstripSlashes (pyStrVal url), droneId := did,
                droneToken := tok, mode := upperChars (pyStrVal m),
                telemetryInterval := interval }
  | _, _, _, _, _ => .error (.configError "Missing config keys")

/-- A key the required-keys check would report as missing. -/
def missingKeys (c : AgentConfig) : Bool :=
  c.dronexUrl.isNone || c.droneId.isNone || c.droneToken.isNone ||
  c.mode.isNone || c.telemetryInterval.isNone

/-- Whether the call raised ConfigError (as opposed to returning, or raising
ValueError out of int()). -/
def raisesConfigError : Except AgentError ValidatedConfig → Bool
  | .error (.configError _) => true
  | _ => false

/-- The configuration refuting C10 as stated: DRONEX_URL is exactly
"https://", every key is present, MODE is valid, TELEMETRY_INTERVAL is 5. -/
def slashOnlyConfig : AgentConfig :=
  { dronexUrl := some (.str "https://".data),
    droneId := some (.str "drone-1".data),
    droneToken := some (.str "token-1".data),
    mode := some (.str "SIMULATION".data),
    telemetryInterval := some (.int 5) }

/-- Counterexample to C10 as stated: this DRONEX_URL does start with
"https://", no key is missing, the upper-cased MODE is SIMULATION and
TELEMETRY_INTERVAL converts to the positive integer 5, so the claim predicts
no ConfigError — yet validate_config raises one, because line 84 of agent.py
runs startswith on the slash-stripped value "https:". -/
theorem validate_config_url_counterexample :
    raisesConfigError (validate_config slashOnlyConfig) = true ∧
    missingKeys slashOnlyConfig = false ∧
    startsWithChars "https://".data (pyStrVal (PyValue.str "https://".data)) = true ∧
    upperChars (pyStrVal (PyValue.str "SIMULATION".data)) = "SIMULATION".data ∧
    pyToInt (PyValue.int 5) = some 5 ∧ (0 : Int) < 5 := by
  decide

/-- C10 amended: validate_config raises ConfigError if and only if a required
key is missing, or str(DRONEX_URL) with trailing slashes stripped does not
start with "https://", or the upper-cased str(MODE) is neither SIMULATION nor
MAVLINK, or TELEMETRY_INTERVAL converts to a non-positive integer; on success
it returns DRONE_ID and DRONE_TOKEN unchanged, DRONEX_URL slash-stripped,
MODE upper-cased, and the converted positive interval. -/
theorem validate_config_spec (url did tok m ti : PyValue) (cm : AgentConfig)
    (hm : missingKeys cm = true) :
    raisesConfigError (validate_config cm) = true ∧
    (raisesConfigError (validate_config ⟨some url, some did, some tok, some m, some ti⟩) = true ↔
      (¬ startsWithChars "https://".data (rstripSlashes (pyStrVal url)) = true ∨
       ¬ (upperChars (pyStrVal m) = "SIMULATION".data ∨
          upperChars (pyStrVal m) = "MAVLINK".data) ∨
       (∃ n, pyToInt ti = some n ∧ n ≤ 0))) ∧
    (∀ v, validate_config ⟨some url, some did, some tok, some m, some ti⟩ = .ok v →
      v.dronexUrl = rstripSlashes (pyStrVal url) ∧ v.droneId = did ∧ v.droneToken = tok ∧
      v.mode = upperChars (pyStrVal m) ∧
      pyToInt ti = some v.telemetryInterval ∧ 0 < v.telemetryInterval) := by
  refine ⟨?_, ?_, ?_⟩
  · obtain ⟨u, d, t, mo, te⟩ := cm
    cases u <;> cases d <;> cases t <;> cases mo <;> cases te <;>
      simp [missingKeys, validate_config, raisesConfigError] at hm ⊢
  · simp only [validate_config]
    by_cases h1 : startsWithChars "https://".data (rstripSlashes (pyStrVal url)) = true
    · rw [if_neg (not_not_intro h1)]
      by_cases h2 : upperChars (pyStrVal m) = "SIMULATION".data ∨
          upperChars (pyStrVal m) = "MAVLINK".data
      · rw [if_neg (not_not_intro h2)]
        cases hti : pyToInt ti with
        | none => simp [raisesConfigError, h1, h2, hti]
        | some n =>
          by_cases h3 : n ≤ 0 <;> simp [raisesConfigError, h1, h2, h3]
      · rw [if_pos h2]
        simp [raisesConfigError, h2]
    · rw [if_pos h1]
      simp [raisesConfigError, h1]
  · simp only [validate_config]
    by_cases h1 : startsWithChars "https://".data (rstripSlashes (pyStrVal url)) = true
    · rw [if_neg (not_not_intro h1)]
      by_cases h2 : upperChars (pyStrVal m) = "SIMULATION".data ∨
          upperChars (pyStrVal m) = "MAVLINK".data
      · rw [if_neg (not_not_intro h2)]
        cases hti : pyToInt ti with
        | none => intro v hv; exact absurd hv (by simp)
        | some n =>
          intro v hv
          by_cases h3 : n ≤ 0
          · simp [h3] at hv
          · simp [h3] at hv
            subst hv
            refine ⟨rfl, rfl, rfl, rfl, rfl, ?_⟩
            show (0 : Int) < n
            omega
      · rw [if_pos h2]
        intro v hv
        exact absurd hv (by simp)
    · rw [if_pos h1]
      intro v hv
      exact absurd hv (by simp)

/-- A well-formed config used as the C10 witness input. -/
def goodConfig : AgentConfig :=
  { dronexUrl := some (.str "https://dronex.example/".data),
    droneId := some (.str "drone-1".data),
    droneToken := some (.str "token-1".data),
    mode := some (.str "simulation".data),
    telemetryInterval := some (.str "7".data) }

/-- A config with DRONE_TOKEN missing, used as the C10 witness input. -/
def missingTokenConfig : AgentConfig :=
  { dronexUrl := some (.str "https://dronex.example".data),
    droneId := some (.str "drone-1".data),
    droneToken := none,
    mode := some (.str "SIMULATION".data),
    telemetryInterval := some (.int 5) }

/-- Witness for the amended C10 at a concrete well-formed config and a
concrete config with a missing key. -/
theorem validate_config_spec_witness :
    raisesConfigError (validate_config missingTokenConfig) = true ∧
    (raisesConfigError (validate_config goodConfig) = true ↔
      (¬ startsWithChars "https://".data
          (rstripSlashes (pyStrVal (PyValue.str "https://dronex.example/".data))) = true ∨
       ¬ (upperChars (pyStrVal (PyValue.str "simulation".data)) = "SIMULATION".data ∨
          upperChars (pyStrVal (PyValue.str "simulation".data)) = "MAVLINK".data) ∨
       (∃ n, pyToInt (PyValue.str "7".data) = some n ∧ n ≤ 0))) ∧
    (∀ v, validate_config goodConfig = .ok v →
      v.dronexUrl = rstripSlashes (pyStrVal (PyValue.str "https://dronex.example/".data)) ∧
      v.droneId = PyValue.str "drone-1".data ∧ v.droneToken = PyValue.str "token-1".data ∧
      v.mode = upperChars (pyStrVal (PyValue.str "simulation".data)) ∧
      pyToInt (PyValue.str "7".data) = some v.telemetryInterval ∧ 0 < v.telemetryInterval) :=
  validate_config_spec (PyValue.str "https://dronex.example/".data)
    (PyValue.str "drone-1".data) (PyValue.str "token-1".data)
    (PyValue.str "simulation".data) (PyValue.str "7".data)
    missingTokenConfig (by decide)
